import Mathlib

/-!
Shallow embedding of `src/app.py` (AutoVizCreator), a single-file Streamlit
application.  The outbound language-model calls and the CSV parse are external
effects; every place the source can raise inside a `try` block is modelled by
an explicit outcome value fed to the handler, and the handler's state updates
are translated line by line from the source.  Session-state fields keep the
source's names (`cleaned_df`, `suggested_chart`, `ai_suggestions`, `raw_data`).
-/

/-- A parsed tabular structure, as produced by `pd.read_csv`: ordered column
names and row-major values. -/
structure Table where
  columns : List String
  rows : List (List String)
  deriving Repr, DecidableEq

/-- Python `list.index` semantics: index of the first occurrence, `none` in
place of the `ValueError` the source catches. -/
def listIndex : List String → String → Option Nat
  | [], _ => none
  | o :: rest, s => if o = s then some 0 else (listIndex rest s).map (· + 1)

/-- `df[name]`: the values of the column called `name` (empty if absent; the
source only ever selects names drawn from `df.columns`). -/
def Table.col (t : Table) (name : String) : List String :=
  match listIndex t.columns name with
  | some i => t.rows.map (fun r => r.getD i "")
  | none => []

/-- Python `str.lower` on the chart tag (`src/app.py` line 98).  Modelled as
per-character lowering, which coincides with Python on the ASCII tags this
application handles. -/
def strLower (s : String) : String := ⟨s.data.map Char.toLower⟩

/-- The session state initialised at `src/app.py` lines 37-42 and 60-63. -/
structure SessionState where
  raw_data : String
  cleaned_df : Option Table
  suggested_chart : String
  ai_suggestions : String
  deriving Repr, DecidableEq

/-- Initial session state: `cleaned_df = None`, `ai_suggestions = ""`,
`suggested_chart = "bar"` (lines 37-42), `raw_data` defaulting to `""`
(line 63). -/
def SessionState.init : SessionState :=
  { raw_data := "", cleaned_df := none, suggested_chart := "bar", ai_suggestions := "" }

/-- Outcome of the `try` block of the clean-and-visualize handler
(`src/app.py` lines 77-99).  The block can raise before line 97 completes
(service call, `json.loads`, missing `"csv"` key, or `pd.read_csv` failing),
or raise at line 98 after `cleaned_df` has already been assigned (missing
`"chart"` key or a non-string `chart` value), or run to completion. -/
inductive CleanStep where
  | failBeforeParse (msg : String)
  | failAfterParse (df : Table) (msg : String)
  | ok (df : Table) (chart : String)
  deriving Repr, DecidableEq

/-- Result of one click of a sidebar button: the new session state plus the
observable effects of that interaction. -/
structure ClickResult where
  state : SessionState
  serviceCalled : Bool
  warningShown : Bool
  errorShown : Option String
  deriving Repr, DecidableEq

/-- The "Clean & Visualize Data" click handler, `src/app.py` lines 72-102.
`raw` is the text-area value; `step` is the outcome of the `try` block.
On the empty-input branch only a warning is shown; on success lines 97-99
assign `cleaned_df`, `suggested_chart` (lower-cased) and reset
`ai_suggestions`; on any exception line 101 shows an error and line 102 sets
`cleaned_df` to `None`. -/
def cleanClick (s : SessionState) (raw : String) (step : CleanStep) : ClickResult :=
  if raw = "" then
    { state := s, serviceCalled := false, warningShown := true, errorShown := none }
  else
    match step with
    | .failBeforeParse msg =>
        { state := { s with cleaned_df := none }, serviceCalled := true,
          warningShown := false, errorShown := some ("Failed to clean data: " ++ msg) }
    | .failAfterParse df msg =>
        -- line 97 ran (`cleaned_df := df`) before line 98 raised; the except
        -- branch then overwrites `cleaned_df` with `None`.
        let s1 : SessionState := { s with cleaned_df := some df }
        { state := { s1 with cleaned_df := none }, serviceCalled := true,
          warningShown := false, errorShown := some ("Failed to clean data: " ++ msg) }
    | .ok df chart =>
        let s2 : SessionState :=
          { s with cleaned_df := some df, suggested_chart := strLower chart, ai_suggestions := "" }
        { state := s2, serviceCalled := true, warningShown := false, errorShown := none }

/-- The "Load Sample Data" click handler, `src/app.py` lines 60-61: stores the
sample text into `raw_data` and touches nothing else. -/
def loadSampleClick (s : SessionState) (sample : String) : SessionState :=
  { s with raw_data := sample }

/-- Outcome of the `try` block of the insight handler (`src/app.py`
lines 165-183): either the model's response content or the exception text. -/
inductive InsightOutcome where
  | ok (content : String)
  | err (msg : String)
  deriving Repr, DecidableEq

/-- The "Get AI Suggestions" click handler, `src/app.py` lines 163-183.
On success line 181 stores the response content; on any exception line 183
stores the formatted error description.  Total: no exception escapes. -/
def insightClick (s : SessionState) (out : InsightOutcome) : SessionState :=
  match out with
  | .ok content => { s with ai_suggestions := content }
  | .err msg => { s with ai_suggestions := "An error occurred: " ++ msg }

/-- `chart_options`, `src/app.py` line 122. -/
def chart_options : List String := ["bar", "line", "scatter", "pie", "area"]

/-- `default_index`, `src/app.py` lines 123-126: `chart_options.index(...)`
with the `ValueError` caught and replaced by `0`. -/
def default_index (suggested : String) : Nat :=
  match listIndex chart_options suggested with
  | some i => i
  | none => 0

/-- The chart type initially selected by the radio widget (`src/app.py`
lines 128-130): the option at `default_index`. -/
def defaultChart (suggested : String) : String :=
  chart_options.getD (default_index suggested) ""

/-- Default x-axis selection, `src/app.py` line 134: column at index 0. -/
def xDefault (df : Table) : String := df.columns.getD 0 ""

/-- Default y-axis selection, `src/app.py` line 135: column at index 1. -/
def yDefault (df : Table) : String := df.columns.getD 1 ""

/-- Default chart title, `src/app.py` line 137: the f-string
`"{y_axis} by {x_axis}"` built from the current axis selections, which at
first creation are the widget defaults. -/
def titleDefault (xSel ySel : String) : String := ySel ++ " by " ++ xSel

/-- Chart kinds of the dispatch at `src/app.py` lines 145-154. -/
inductive FigKind where
  | bar | line | scatter | area | pie
  deriving Repr, DecidableEq

/-- A plotly figure as the application constructs it: the kind, the two
column-value sequences handed to the plotting call (x/y for the cartesian
families, names/values for pie), and the title.  The application passes the
columns verbatim. -/
structure Figure where
  kind : FigKind
  firstData : List String
  secondData : List String
  title : String
  deriving Repr, DecidableEq

/-- The chart dispatch, `src/app.py` lines 145-154: each branch hands
`df[x_axis]` and `df[y_axis]` (for pie: `names=x_axis`, `values=y_axis`) and
the title to the plotting call, with no other processing.  `none` models the
fall-through when `selected_chart` matches no branch (`fig` stays unbound). -/
def buildFigure (df : Table) (selected_chart x_axis y_axis chart_title : String) :
    Option Figure :=
  if selected_chart = "bar" then
    some ⟨.bar, df.col x_axis, df.col y_axis, chart_title⟩
  else if selected_chart = "line" then
    some ⟨.line, df.col x_axis, df.col y_axis, chart_title⟩
  else if selected_chart = "scatter" then
    some ⟨.scatter, df.col x_axis, df.col y_axis, chart_title⟩
  else if selected_chart = "area" then
    some ⟨.area, df.col x_axis, df.col y_axis, chart_title⟩
  else if selected_chart = "pie" then
    some ⟨.pie, df.col x_axis, df.col y_axis, chart_title⟩
  else none

/-- What the page renders for a cleaned table: whether the chart-configuration
widgets (axes and title) are created, whether the single-column warning is
shown, and the figure the visualization tab attempts (guards at `src/app.py`
lines 132, 139, 143). -/
structure PageView where
  configEnabled : Bool
  warningShown : Bool
  figure : Option Figure
  deriving Repr, DecidableEq

/-- The rendering of the configuration column and visualization tab for a
cleaned table `df` (`src/app.py` lines 132-156): both the axis/title widgets
and the chart build are guarded by `len(df.columns) > 1`; otherwise a warning
is shown and no figure is built. -/
def renderPage (df : Table) (selected_chart x_axis y_axis chart_title : String) :
    PageView :=
  if df.columns.length > 1 then
    { configEnabled := true, warningShown := false,
      figure := buildFigure df selected_chart x_axis y_axis chart_title }
  else
    { configEnabled := false, warningShown := true, figure := none }

/-! ### Helper lemmas -/

/-- If the stored suggestion is not a known option, `list.index` raises and the
caught `ValueError` yields index 0, i.e. the option `"bar"`. -/
theorem defaultChart_of_not_mem (s : String) (hs : s ∉ chart_options) :
    defaultChart s = "bar" := by
  simp only [chart_options, List.mem_cons, List.not_mem_nil, or_false, not_or] at hs
  obtain ⟨h1, h2, h3, h4, h5⟩ := hs
  simp [defaultChart, default_index, listIndex, chart_options,
    Ne.symm h1, Ne.symm h2, Ne.symm h3, Ne.symm h4, Ne.symm h5]

/-- If the stored suggestion is a known option, `list.index` finds it and the
radio widget defaults to that same option. -/
theorem defaultChart_of_mem (s : String) (hs : s ∈ chart_options) :
    defaultChart s = s := by
  simp only [chart_options, List.mem_cons, List.not_mem_nil, or_false] at hs
  rcases hs with rfl | rfl | rfl | rfl | rfl <;> rfl

/-! ### Claim theorems -/

/-- C1: for every cleaning response, if the stored suggested chart is not one
of bar, line, scatter, pie, area, the chart-type configuration defaults to
"bar" (the first entry of `chart_options`) and no error is raised
(`default_index` is total: the `ValueError` is caught); when the stored
suggestion does match a known type, it is used as the default selection. -/
theorem c1_chart_default_fallback :
    (∀ s : String, s ∉ chart_options → defaultChart s = "bar") ∧
    (∀ s : String, s ∈ chart_options → defaultChart s = s) :=
  ⟨defaultChart_of_not_mem, defaultChart_of_mem⟩

/-- C1 witness: an unknown tag falls back to "bar"; a known tag is kept. -/
theorem c1_chart_default_fallback_witness :
    defaultChart "donut" = "bar" ∧ defaultChart "pie" = "pie" :=
  ⟨c1_chart_default_fallback.1 "donut" (by decide),
   c1_chart_default_fallback.2 "pie" (by decide)⟩

/-- C2 counterexample: a cleaning response whose chart field lower-cases to
the unknown tag "donut" is NOT treated as a failure: no error is shown and
`cleaned_df` is set to the parsed table, refuting the claim. -/
theorem c2_unknown_chart_failure_cex :
    strLower "Donut" ∉ chart_options ∧
    (cleanClick SessionState.init "A,1" (.ok ⟨["A", "B"], [["1", "2"]]⟩ "Donut")).errorShown
      = none ∧
    (cleanClick SessionState.init "A,1" (.ok ⟨["A", "B"], [["1", "2"]]⟩ "Donut")).state.cleaned_df
      = some ⟨["A", "B"], [["1", "2"]]⟩ := by
  refine ⟨by decide, rfl, rfl⟩

/-- C2 amended: a cleaning response whose chart field does not lower-case to a
known chart type is not a failure: no error is surfaced, `cleaned_df` is set
to the parsed table, `suggested_chart` stores the unknown lower-cased tag, and
only the later chart-type configuration falls back to "bar". -/
theorem c2_unknown_chart_no_failure (s : SessionState) (raw : String) (df : Table)
    (chart : String) (hraw : raw ≠ "") (hchart : strLower chart ∉ chart_options) :
    (cleanClick s raw (.ok df chart)).errorShown = none ∧
    (cleanClick s raw (.ok df chart)).state.cleaned_df = some df ∧
    (cleanClick s raw (.ok df chart)).state.suggested_chart = strLower chart ∧
    defaultChart (cleanClick s raw (.ok df chart)).state.suggested_chart = "bar" := by
  refine ⟨by simp [cleanClick, hraw], by simp [cleanClick, hraw], by simp [cleanClick, hraw], ?_⟩
  have h : (cleanClick s raw (.ok df chart)).state.suggested_chart = strLower chart := by
    simp [cleanClick, hraw]
  rw [h]
  exact defaultChart_of_not_mem _ hchart

/-- C2 amended witness: concrete run with chart tag "Donut". -/
theorem c2_unknown_chart_no_failure_witness :
    ("A,1" ≠ "" ∧ strLower "Donut" ∉ chart_options) ∧
    ((cleanClick SessionState.init "A,1" (.ok ⟨["A"], []⟩ "Donut")).errorShown = none ∧
     (cleanClick SessionState.init "A,1" (.ok ⟨["A"], []⟩ "Donut")).state.cleaned_df
       = some ⟨["A"], []⟩ ∧
     (cleanClick SessionState.init "A,1" (.ok ⟨["A"], []⟩ "Donut")).state.suggested_chart
       = strLower "Donut" ∧
     defaultChart (cleanClick SessionState.init "A,1" (.ok ⟨["A"], []⟩ "Donut")).state.suggested_chart
       = "bar") :=
  ⟨⟨by decide, by decide⟩,
   c2_unknown_chart_no_failure SessionState.init "A,1" ⟨["A"], []⟩ "Donut"
     (by decide) (by decide)⟩

/-- C3 counterexample: the state reached from the initial state by one
successful cleaning whose response carries chart tag "Donut" has
`suggested_chart = "donut"`, which is not in the enum, refuting the claimed
invariant. -/
theorem c3_suggested_chart_enum_cex :
    (cleanClick SessionState.init "x" (.ok ⟨["A"], []⟩ "Donut")).state.suggested_chart
      = "donut" ∧
    "donut" ∉ chart_options := by
  exact ⟨rfl, by decide⟩

/-- C3 amended: `suggested_chart` starts as "bar" and every operation other
than a successful cleaning preserves its value; a successful cleaning
overwrites it with the lower-cased chart tag verbatim, which need not belong
to {bar, line, scatter, pie, area}. -/
theorem c3_suggested_chart_evolution :
    SessionState.init.suggested_chart = "bar" ∧
    (∀ (s : SessionState) (raw : String) (step : CleanStep),
      (cleanClick s raw step).state.suggested_chart = s.suggested_chart ∨
      ∃ df chart, step = CleanStep.ok df chart ∧
        (cleanClick s raw step).state.suggested_chart = strLower chart) ∧
    (∀ (s : SessionState) (out : InsightOutcome),
      (insightClick s out).suggested_chart = s.suggested_chart) ∧
    (∀ (s : SessionState) (sample : String),
      (loadSampleClick s sample).suggested_chart = s.suggested_chart) := by
  refine ⟨rfl, ?_, ?_, ?_⟩
  · intro s raw step
    by_cases hraw : raw = ""
    · left; simp [cleanClick, hraw]
    · cases step with
      | failBeforeParse msg => left; simp [cleanClick, hraw]
      | failAfterParse df msg => left; simp [cleanClick, hraw]
      | ok df chart => right; exact ⟨df, chart, rfl, by simp [cleanClick, hraw]⟩
  · intro s out; cases out <;> rfl
  · intro s sample; rfl

/-- C4: a successful cleaning request overwrites `cleaned_df` with the parsed
table and `suggested_chart` with the lower-cased chart tag together, resets
`ai_suggestions` to empty, and modifies no other session-state field
(`raw_data` is preserved). -/
theorem c4_cleaning_success_frame (s : SessionState) (raw : String) (df : Table)
    (chart : String) (hraw : raw ≠ "") :
    (cleanClick s raw (.ok df chart)).state =
      { raw_data := s.raw_data, cleaned_df := some df,
        suggested_chart := strLower chart, ai_suggestions := "" } ∧
    (cleanClick s raw (.ok df chart)).errorShown = none := by
  constructor <;> simp [cleanClick, hraw]

/-- C4 witness: concrete successful cleaning from a non-initial state. -/
theorem c4_cleaning_success_frame_witness :
    "A,1" ≠ "" ∧
    ((cleanClick { raw_data := "A,1", cleaned_df := none, suggested_chart := "pie",
                   ai_suggestions := "old" } "A,1" (.ok ⟨["A"], []⟩ "Line")).state =
       { raw_data := "A,1", cleaned_df := some ⟨["A"], []⟩,
         suggested_chart := strLower "Line", ai_suggestions := "" } ∧
     (cleanClick { raw_data := "A,1", cleaned_df := none, suggested_chart := "pie",
                   ai_suggestions := "old" } "A,1" (.ok ⟨["A"], []⟩ "Line")).errorShown = none) :=
  ⟨by decide,
   c4_cleaning_success_frame
     { raw_data := "A,1", cleaned_df := none, suggested_chart := "pie",
       ai_suggestions := "old" } "A,1" ⟨["A"], []⟩ "Line" (by decide)⟩

/-- C5: clicking "Clean & Visualize Data" with empty raw input makes no
service call, shows a warning, and leaves the whole session state (in
particular `cleaned_df`) unchanged. -/
theorem c5_empty_input_no_call (s : SessionState) (step : CleanStep) :
    cleanClick s "" step =
      { state := s, serviceCalled := false, warningShown := true, errorShown := none } := by
  simp [cleanClick]

/-- C6: the insight handler is total — no exception escapes it — and for every
outcome it stores either the model's response content or the error-description
string in `ai_suggestions`, touching no other field. -/
theorem c6_insight_failure_soft (s : SessionState) (out : InsightOutcome) :
    insightClick s out =
      { s with ai_suggestions :=
          match out with
          | .ok content => content
          | .err msg => "An error occurred: " ++ msg } := by
  cases out <;> rfl

/-- C7: for every table, column names and title, each valid chart type builds
exactly one figure: bar, line, scatter and area pass the x-column values and
y-column values with the given title, and pie passes the x-column values as
category labels (`names`) and the y-column values as magnitudes (`values`)
with the given title — the column value sequences are handed over verbatim
(no aggregation, sorting or coercion), whatever the values are. -/
theorem c7_chart_dispatch_mapping (df : Table) (x y t : String) :
    buildFigure df "bar" x y t = some ⟨.bar, df.col x, df.col y, t⟩ ∧
    buildFigure df "line" x y t = some ⟨.line, df.col x, df.col y, t⟩ ∧
    buildFigure df "scatter" x y t = some ⟨.scatter, df.col x, df.col y, t⟩ ∧
    buildFigure df "area" x y t = some ⟨.area, df.col x, df.col y, t⟩ ∧
    buildFigure df "pie" x y t = some ⟨.pie, df.col x, df.col y, t⟩ := by
  refine ⟨rfl, ?_, ?_, ?_, ?_⟩ <;> simp [buildFigure]

/-- C8: when the cleaned table has fewer than two columns, the chart
configuration is disabled, the single-column warning is shown, and no chart
render is attempted. -/
theorem c8_single_column_no_chart (df : Table) (c x y t : String)
    (h : df.columns.length < 2) :
    renderPage df c x y t =
      { configEnabled := false, warningShown := true, figure := none } := by
  have hn : ¬ df.columns.length > 1 := by omega
  simp [renderPage, hn]

/-- C8 witness: a one-column table. -/
theorem c8_single_column_no_chart_witness :
    (⟨["only"], [["v"]]⟩ : Table).columns.length < 2 ∧
    renderPage ⟨["only"], [["v"]]⟩ "bar" "only" "only" "t" =
      { configEnabled := false, warningShown := true, figure := none } :=
  ⟨by decide, c8_single_column_no_chart ⟨["only"], [["v"]]⟩ "bar" "only" "only" "t" (by decide)⟩

/-- C9: for a table with at least two columns, the x-axis selection defaults
to the first column, the y-axis selection defaults to the second, and the
chart title defaults to "{y} by {x}" built from the current (default) axis
selections. -/
theorem c9_config_defaults (df : Table) (c0 c1 : String) (rest : List String)
    (h : df.columns = c0 :: c1 :: rest) :
    xDefault df = c0 ∧ yDefault df = c1 ∧
    titleDefault (xDefault df) (yDefault df) = c1 ++ " by " ++ c0 := by
  simp [xDefault, yDefault, titleDefault, h]

/-- C9 witness: a concrete two-column table. -/
theorem c9_config_defaults_witness :
    (⟨["Month", "Sales"], []⟩ : Table).columns = "Month" :: "Sales" :: [] ∧
    (xDefault ⟨["Month", "Sales"], []⟩ = "Month" ∧
     yDefault ⟨["Month", "Sales"], []⟩ = "Sales" ∧
     titleDefault (xDefault ⟨["Month", "Sales"], []⟩) (yDefault ⟨["Month", "Sales"], []⟩)
       = "Sales" ++ " by " ++ "Month") :=
  ⟨rfl, c9_config_defaults ⟨["Month", "Sales"], []⟩ "Month" "Sales" [] rfl⟩

/-- C10: every cleaning failure — whether raised before the CSV parse or after
`cleaned_df` was already assigned but before the chart tag was stored — shows
an error, leaves `cleaned_df` unset, and preserves `suggested_chart`,
`ai_suggestions` and `raw_data` at their previous values. -/
theorem c10_cleaning_failure_frame (s : SessionState) (raw msg : String) (df : Table)
    (hraw : raw ≠ "") :
    (cleanClick s raw (.failBeforeParse msg)).state = { s with cleaned_df := none } ∧
    (cleanClick s raw (.failAfterParse df msg)).state = { s with cleaned_df := none } ∧
    (cleanClick s raw (.failBeforeParse msg)).errorShown
      = some ("Failed to clean data: " ++ msg) ∧
    (cleanClick s raw (.failAfterParse df msg)).errorShown
      = some ("Failed to clean data: " ++ msg) := by
  refine ⟨?_, ?_, ?_, ?_⟩ <;> simp [cleanClick, hraw]

/-- C10 witness: a failure after the parse, from a state holding a previous
table, suggestion and insight text. -/
theorem c10_cleaning_failure_frame_witness :
    "x" ≠ "" ∧
    ((cleanClick { raw_data := "x", cleaned_df := some ⟨["Old"], []⟩,
                   suggested_chart := "pie", ai_suggestions := "prior insight" }
        "x" (.failBeforeParse "boom")).state =
       { raw_data := "x", cleaned_df := none, suggested_chart := "pie",
         ai_suggestions := "prior insight" } ∧
     (cleanClick { raw_data := "x", cleaned_df := some ⟨["Old"], []⟩,
                   suggested_chart := "pie", ai_suggestions := "prior insight" }
        "x" (.failAfterParse ⟨["New"], []⟩ "boom")).state =
       { raw_data := "x", cleaned_df := none, suggested_chart := "pie",
         ai_suggestions := "prior insight" } ∧
     (cleanClick { raw_data := "x", cleaned_df := some ⟨["Old"], []⟩,
                   suggested_chart := "pie", ai_suggestions := "prior insight" }
        "x" (.failBeforeParse "boom")).errorShown
       = some ("Failed to clean data: " ++ "boom") ∧
     (cleanClick { raw_data := "x", cleaned_df := some ⟨["Old"], []⟩,
                   suggested_chart := "pie", ai_suggestions := "prior insight" }
        "x" (.failAfterParse ⟨["New"], []⟩ "boom")).errorShown
       = some ("Failed to clean data: " ++ "boom")) :=
  ⟨by decide,
   c10_cleaning_failure_frame
     { raw_data := "x", cleaned_df := some ⟨["Old"], []⟩,
       suggested_chart := "pie", ai_suggestions := "prior insight" }
     "x" "boom" ⟨["New"], []⟩ (by decide)⟩
